import Mathlib

/-!
Verification of the watch-party coordination client (socket.ts and the
WatchPartySession component) and of the spec-described server-side
presence registry and playback-state synchronizer.

The client keeps a global peers map from socket id to a SimplePeer
instance, a nullable local stream, and a stored current party id.  We
embed the peer instance by the data the claims are about: its initiator
flag, the list of signaling payloads applied to it, and the stream it
was constructed with.  Signal payloads are atoms modelled as Nat.
-/

/-- Embeds a SimplePeer instance as created by createPeer in socket.ts:
the initiator flag passed to the constructor, the signaling payloads
applied via peer.signal in the order applied, and the local stream
handed to the constructor (none when no local media was available). -/
structure PeerConn where
  initiator : Bool
  appliedSignals : List Nat
  stream : Option Nat
deriving DecidableEq, Repr

/-- The client-side global state of socket.ts: the peers map (an
association list keyed by socket id), the local media stream, the
stored current party id (localStorage), and the list of socket
ids whose peer instance has had destroy() called on it. -/
structure ClientState where
  peers : List (String × PeerConn)
  localStream : Option Nat
  currentPartyId : Option Nat
  destroyed : List String
deriving DecidableEq, Repr

/-- Lookup in the peers association list (peers[sid] in the source). -/
def lookupPeer (k : String) : List (String × PeerConn) → Option PeerConn
  | [] => none
  | (a, v) :: rest => if a = k then some v else lookupPeer k rest

/-- Removal from the peers association list (delete peers[sid]). -/
def removePeer (k : String) : List (String × PeerConn) → List (String × PeerConn)
  | [] => []
  | (a, v) :: rest => if a = k then removePeer k rest else (a, v) :: removePeer k rest

/-- Assignment peers[sid] = peer: installs the new binding, superseding
any existing binding for the same key. -/
def setPeer (k : String) (v : PeerConn) (l : List (String × PeerConn)) :
    List (String × PeerConn) :=
  (k, v) :: removePeer k l

/-- createPeer from socket.ts: builds a SimplePeer with the given
initiator flag and the current local stream; when not the initiator and
an incoming signal was supplied, that signal is applied immediately;
the instance is then stored in the peers map. -/
def createPeer (peerID : String) (isInitiator : Bool) (incomingSignal : Option Nat)
    (st : ClientState) : ClientState :=
  let peer : PeerConn :=
    { initiator := isInitiator
      appliedSignals := if isInitiator then [] else incomingSignal.toList
      stream := st.localStream }
  { st with peers := setPeer peerID peer st.peers }

/-- The signal_received handler: if a peer for from_sid already exists
the signal is applied to it, otherwise a new non-initiator peer is
created with the incoming signal. -/
def onSignalReceived (from_sid : String) (signal : Nat) (st : ClientState) : ClientState :=
  match lookupPeer from_sid st.peers with
  | some p =>
      { st with peers :=
          setPeer from_sid { p with appliedSignals := p.appliedSignals ++ [signal] } st.peers }
  | none => createPeer from_sid false (some signal) st

/-- The participant_joined handler: if a local stream exists and the
announced sid is not our own socket id, create an initiator peer
toward the new participant. -/
def onParticipantJoined (selfSid : String) (sid : String) (st : ClientState) : ClientState :=
  if st.localStream.isSome ∧ selfSid ≠ sid then createPeer sid true none st else st

/-- The participant_left handler: if a peer exists for the departed
sid, destroy it and delete it from the peers map. -/
def onParticipantLeft (sid : String) (st : ClientState) : ClientState :=
  match lookupPeer sid st.peers with
  | some _ =>
      { st with peers := removePeer sid st.peers, destroyed := sid :: st.destroyed }
  | none => st

/-- The handler installed by createPeer for a peer error event: if the
peer is still in the map, destroy it and delete it; nothing else. -/
def onPeerError (peerID : String) (st : ClientState) : ClientState :=
  match lookupPeer peerID st.peers with
  | some _ =>
      { st with peers := removePeer peerID st.peers, destroyed := peerID :: st.destroyed }
  | none => st

/-- The socket events a connected client reacts to. -/
inductive ClientEvent where
  | participantJoined (sid : String)
  | participantLeft (sid : String)
  | signalReceived (from_sid : String) (signal : Nat)
  | peerError (sid : String)
deriving DecidableEq, Repr

/-- Dispatch of one incoming event to its handler. -/
def stepEvent (selfSid : String) (e : ClientEvent) (st : ClientState) : ClientState :=
  match e with
  | .participantJoined sid => onParticipantJoined selfSid sid st
  | .participantLeft sid => onParticipantLeft sid st
  | .signalReceived f s => onSignalReceived f s st
  | .peerError sid => onPeerError sid st

/-- A freshly connected client with the given local stream: empty peers
map, no stored party id, nothing destroyed. -/
def newClient (stream : Option Nat) : ClientState :=
  { peers := [], localStream := stream, currentPartyId := none, destroyed := [] }

/-!  A small multi-client world used to check the mesh initiator
assignments: each client is a (socket id, state) pair.  When a new
participant joins, the server broadcasts participant_joined to every
client already present (the joiner itself bootstraps from the join
acknowledgement roster and receives no event for the existing
members), and the joiner is added with a fresh state and a live
local stream. -/

/-- One join processed by every already-present client, then the
joiner is appended with a fresh state. -/
def joinParty (sid : String) (w : List (String × ClientState)) :
    List (String × ClientState) :=
  (w.map fun c => (c.1, onParticipantJoined c.1 sid c.2)) ++ [(sid, newClient (some 0))]

/-- Run a sequence of joins from an empty party. -/
def runJoins (sids : List String) : List (String × ClientState) :=
  sids.foldl (fun w s => joinParty s w) []

/-- All (initiating client, target peer) pairs in the world: client x
initiates toward y when the peer instance stored at x for y carries
initiator = true. -/
def initiators (w : List (String × ClientState)) : List (String × String) :=
  w.flatMap fun c => (c.2.peers.filter fun p => p.2.initiator).map fun p => (c.1, p.1)

/-!  joinWatchParty and leaveWatchParty from socket.ts.  Both first
perform synchronous local work (storing, resp. removing, the current
party id; for leave also destroying every peer and clearing the map)
and then settle a promise from the server acknowledgement; the
acknowledgement callback never touches the peers map. -/

/-- A roster entry as delivered in the join acknowledgement. -/
structure RosterEntry where
  sid : String
  user_id : String
  username : String
deriving DecidableEq, Repr

/-- The playback state carried by the join acknowledgement. -/
structure VideoState where
  playing : Bool
  currentTime : Nat
  tmdbId : Option Nat
deriving DecidableEq, Repr

/-- The join_watch_party acknowledgement payload. -/
structure JoinResponse where
  success : Bool
  error : Option String
  participants : List RosterEntry
  video_state : VideoState
deriving DecidableEq, Repr

/-- Synchronous part of joinWatchParty: the party id is stored in
localStorage before the join request is emitted. -/
def joinWatchPartyLocal (partyId : Nat) (st : ClientState) : ClientState :=
  { st with currentPartyId := some partyId }

/-- Settlement of the joinWatchParty promise from the server
acknowledgement: resolve with the whole response when success is set,
otherwise reject with the server-supplied error message, falling back
to a fixed message when none was supplied. -/
def joinAck (resp : JoinResponse) : Except String JoinResponse :=
  if resp.success then Except.ok resp
  else Except.error (resp.error.getD "Failed to join watch party")

/-- Whether a settled promise resolved (rather than rejected). -/
def ackResolves (r : Except String JoinResponse) : Bool :=
  match r with
  | .ok _ => true
  | .error _ => false

/-- A participant entry of the WatchPartySession component state. -/
structure Participant where
  sid : String
  user_id : String
  username : String
  joined : Bool
  hasVideo : Bool
  hasMic : Bool
deriving DecidableEq, Repr

/-- How setupMedia in WatchPartySession turns one acknowledged roster
entry into a participant tile: joined, no remote video yet, mic on. -/
def mkParticipant (p : RosterEntry) : Participant :=
  { sid := p.sid, user_id := p.user_id, username := p.username
    joined := true, hasVideo := false, hasMic := true }

/-- The participants view bootstrapped from a successful join
acknowledgement. -/
def bootstrapParticipants (resp : JoinResponse) : List Participant :=
  resp.participants.map mkParticipant

/-- The tmdbId picked up from the acknowledged video state (a zero id
is falsy in the source and leaves the previous value in place). -/
def bootstrapTmdb (prev : Option Nat) (resp : JoinResponse) : Option Nat :=
  match resp.video_state.tmdbId with
  | some t => if t ≠ 0 then some t else prev
  | none => prev

/-- Synchronous part of leaveWatchParty: the stored party id is
removed before the request is emitted, and every peer connection is
destroyed and the peers map emptied right after emitting, before any
acknowledgement can arrive. -/
def leaveWatchPartyLocal (st : ClientState) : ClientState :=
  { st with currentPartyId := none
            peers := []
            destroyed := st.peers.map Prod.fst ++ st.destroyed }

/-- Settlement of the leaveWatchParty promise from the server
acknowledgement. -/
def leaveAck (success : Bool) (error : Option String) : Except String Unit :=
  if success then Except.ok ()
  else Except.error (error.getD "Failed to leave watch party")

/-- The whole leaveWatchParty call: the local teardown happens
unconditionally, and the eventual acknowledgement only settles the
promise without touching the client state. -/
def leaveWatchParty (st : ClientState) (success : Bool) (error : Option String) :
    ClientState × Except String Unit :=
  (leaveWatchPartyLocal st, leaveAck success error)

/-- setupMedia in WatchPartySession, keyed by whether initUserMedia
succeeded (some stream) or threw (none): on failure the client keeps a
null stream and disables audio and video, but still proceeds to join
the party. -/
structure MediaSetup where
  localStream : Option Nat
  videoEnabled : Bool
  audioEnabled : Bool
  joinsParty : Bool
deriving DecidableEq, Repr

/-- Outcome of the setupMedia media-initialization phase. -/
def setupMedia (mediaResult : Option Nat) : MediaSetup :=
  match mediaResult with
  | some s =>
      { localStream := some s, videoEnabled := true, audioEnabled := true
        joinsParty := true }
  | none =>
      { localStream := none, videoEnabled := false, audioEnabled := false
        joinsParty := true }

/-!  The video_state_updated handler of WatchPartySession.  The whole
handler body is guarded by videoPlayerRef.current being non-null (no
video element is mounted while no movie is selected); inside the
guard, each of the three fields is applied only when present in the
received state, and tmdbId only when it differs from the current one. -/

/-- The receiver-side player state: whether a video player element is
mounted, and the three synchronized fields. -/
structure PlayerState where
  hasPlayer : Bool
  playing : Bool
  currentTime : Nat
  tmdbId : Option Nat
deriving DecidableEq, Repr

/-- A sparse playback-state update as sent on the wire: absent fields
are undefined in the source. -/
structure WireUpdate where
  playing : Option Bool
  currentTime : Option Nat
  tmdbId : Option Nat
deriving DecidableEq, Repr

/-- The video_state_updated handler. -/
def onVideoStateUpdated (u : WireUpdate) (st : PlayerState) : PlayerState :=
  if st.hasPlayer then
    let st1 := match u.playing with
      | some b => { st with playing := b }
      | none => st
    let st2 := match u.currentTime with
      | some t => { st1 with currentTime := t }
      | none => st1
    match u.tmdbId with
    | some t => if some t ≠ st2.tmdbId then { st2 with tmdbId := some t } else st2
    | none => st2
  else st

/-- The update emitted by the SearchOverlay onSelectMovie callback
when a new movie is chosen for the party. -/
def selectMovieUpdate (id : Nat) : WireUpdate :=
  { playing := some true, currentTime := some 0, tmdbId := some id }

/-!  Server-side components.  The coordination server that holds the
presence registry and the playback-state synchronizer is not part of
the client sources; the two definitions below are modelled from the
specification text. -/

/-- The authoritative playback state of a party held by the server. -/
structure SrvState where
  playing : Bool
  position : Nat
  content_id : Option Nat
deriving DecidableEq, Repr

/-- A sparse playback-state update received by the server. -/
structure SrvUpdate where
  playing : Option Bool
  position : Option Nat
  content_id : Option Nat
deriving DecidableEq, Repr

/-- Modelled from the spec: the setState operation of the Playback
State Synchronizer (the server-side video_state_change handler is not
among the sources).  Provided fields are merged into the party state
and unset fields are left unchanged, except that a set content_id is
treated as a full reset to playing = true, position = 0 unless those
fields are explicitly overridden in the same update. -/
def setStateSrv (old : SrvState) (u : SrvUpdate) : SrvState :=
  if u.content_id.isSome then
    { playing := u.playing.getD true
      position := u.position.getD 0
      content_id := u.content_id }
  else
    { playing := u.playing.getD old.playing
      position := u.position.getD old.position
      content_id := old.content_id }

/-- Modelled from the spec: the resulting full state is broadcast to
every connection handle in the roster other than the sender; the pairs
below are (observer handle, state observed by that handle). -/
def observeBroadcast (roster : List String) (sender : String) (old : SrvState)
    (u : SrvUpdate) : List (String × SrvState) :=
  (roster.filter fun h => h ≠ sender).map fun h => (h, setStateSrv old u)

/-- A presence-registry entry: one live connection handle bound to a
(party, user) identity. -/
structure RegEntry where
  handle : String
  party : Nat
  user : String
deriving DecidableEq, Repr

/-- Whether a registry entry is bound to the given (party, user)
identity. -/
def sameIdent (party : Nat) (user : String) (e : RegEntry) : Bool :=
  e.party == party && e.user == user

/-- Modelled from the spec: register in the Presence Registry (the
coordination server is not among the sources).  Any live handle
already mapping to the same (party, user) pair is evicted before the
new handle is installed. -/
def registerHandle (h : String) (party : Nat) (user : String) (r : List RegEntry) :
    List RegEntry :=
  { handle := h, party := party, user := user } ::
    r.filter fun e => !(sameIdent party user e)

/-- Modelled from the spec: unregister removes the mapping of one
connection handle. -/
def unregisterHandle (h : String) (r : List RegEntry) : List RegEntry :=
  r.filter fun e => !(e.handle == h)

/-- The operations that mutate the presence registry. -/
inductive RegOp where
  | register (h : String) (party : Nat) (user : String)
  | unregister (h : String)
deriving DecidableEq, Repr

/-- Apply one registry operation. -/
def applyRegOp (r : List RegEntry) (o : RegOp) : List RegEntry :=
  match o with
  | .register h party user => registerHandle h party user r
  | .unregister h => unregisterHandle h r

/-- Run a sequence of registry operations from the empty registry (the
registry is in-memory and starts empty at process start). -/
def runRegOps (ops : List RegOp) : List RegEntry :=
  ops.foldl applyRegOp []

/-- The live handles currently registered for one (party, user) pair. -/
def liveFor (party : Nat) (user : String) (r : List RegEntry) : List RegEntry :=
  r.filter (sameIdent party user)

/-!  Helper lemmas about the peers association list. -/

theorem lookupPeer_removePeer_self (q : String) (l : List (String × PeerConn)) :
    lookupPeer q (removePeer q l) = none := by
  induction l with
  | nil => rfl
  | cons x rest ih =>
      obtain ⟨a, v⟩ := x
      by_cases haq : a = q
      · simpa [removePeer, haq] using ih
      · simpa [removePeer, lookupPeer, haq] using ih

theorem lookupPeer_removePeer_ne (p q : String) (l : List (String × PeerConn))
    (h : p ≠ q) : lookupPeer p (removePeer q l) = lookupPeer p l := by
  induction l with
  | nil => rfl
  | cons x rest ih =>
      obtain ⟨a, v⟩ := x
      by_cases haq : a = q
      · subst haq
        simpa [removePeer, lookupPeer, Ne.symm h] using ih
      · by_cases hap : a = p
        · simp [removePeer, lookupPeer, haq, hap, h]
        · simpa [removePeer, lookupPeer, haq, hap] using ih

theorem lookupPeer_setPeer_self (k : String) (v : PeerConn)
    (l : List (String × PeerConn)) : lookupPeer k (setPeer k v l) = some v := by
  simp [setPeer, lookupPeer]

theorem lookupPeer_setPeer_ne (p k : String) (v : PeerConn)
    (l : List (String × PeerConn)) (h : p ≠ k) :
    lookupPeer p (setPeer k v l) = lookupPeer p l := by
  have hkp : k ≠ p := fun hh => h hh.symm
  simp [setPeer, lookupPeer, hkp, lookupPeer_removePeer_ne p k l h]

/-!  Claim C1. -/

/-- C1 counterexample: when participant B joins a party where client A
is already present (with local media), the pair-state created at A for
the pair has initiator = true on the A side, i.e. the EXISTING
participant initiates; for a join order A, B the only initiator
assignment is A toward B, not B toward A as the claim states. -/
theorem participantJoined_existing_side_initiates_counterexample :
    lookupPeer "B" (onParticipantJoined "A" "B" (newClient (some 0))).peers
      = some { initiator := true, appliedSignals := [], stream := some 0 } ∧
    initiators (runJoins ["A", "B"]) = [("A", "B")] ∧
    ("B", "A") ∉ initiators (runJoins ["A", "B"]) := by
  decide

/-- C1 (amended): the media-connection initiator is the EARLIER
joiner.  When a participant_joined event announces b to a client a
that is already present and has local media, a creates the pair-state
with a as initiator and b waits passively; so for join order A, B, C
the initiator assignments are exactly A toward B, A toward C and B
toward C, and no pair ever has two simultaneous initiators. -/
theorem mesh_initiator_is_earlier_joiner (a b : String) (st : ClientState)
    (hstream : st.localStream.isSome = true) (hab : a ≠ b) :
    lookupPeer b (onParticipantJoined a b st).peers
      = some { initiator := true, appliedSignals := [], stream := st.localStream } ∧
    initiators (runJoins ["A", "B", "C"]) = [("A", "C"), ("A", "B"), ("B", "C")] ∧
    (∀ q ∈ initiators (runJoins ["A", "B", "C"]),
      (q.2, q.1) ∉ initiators (runJoins ["A", "B", "C"])) := by
  refine ⟨?_, by decide, by decide⟩
  simp [onParticipantJoined, hstream, hab, createPeer, lookupPeer_setPeer_self]

/-- Witness for the amended C1 theorem at a concrete client state. -/
theorem mesh_initiator_is_earlier_joiner_witness :
    lookupPeer "B" (onParticipantJoined "A" "B" (newClient (some 7))).peers
      = some { initiator := true, appliedSignals := [], stream := some 7 } :=
  (mesh_initiator_is_earlier_joiner "A" "B" (newClient (some 7)) rfl (by decide)).1

/-!  Claim C2. -/

/-- C2: a playback-state update whose content id is set and that does
not override playing or position is observed by every participant
other than the sender as playing = true, position = 0 with the new
content id; and when the update does override those fields, the
overriding values win. -/
theorem contentChange_resets_state (roster : List String) (sender : String)
    (old : SrvState) (u : SrvUpdate) (c : Nat) (hc : u.content_id = some c)
    (hp : u.playing = none) (hq : u.position = none) :
    observeBroadcast roster sender old u
      = (roster.filter fun h => h ≠ sender).map
          (fun h => (h, { playing := true, position := 0, content_id := some c })) ∧
    ∀ b p v, setStateSrv old { playing := some b, position := some p, content_id := some v }
      = { playing := b, position := p, content_id := some v } := by
  constructor
  · simp [observeBroadcast, setStateSrv, hc, hp, hq]
  · intro b p v
    simp [setStateSrv]

/-- Witness for the C2 theorem at a concrete update and roster. -/
theorem contentChange_resets_state_witness :
    observeBroadcast ["h1", "h2"] "h1"
        { playing := false, position := 55, content_id := none }
        { playing := none, position := none, content_id := some 77 }
      = (["h1", "h2"].filter fun h => h ≠ "h1").map
          (fun h => (h, { playing := true, position := 0, content_id := some 77 })) :=
  (contentChange_resets_state ["h1", "h2"] "h1"
    { playing := false, position := 55, content_id := none }
    { playing := none, position := none, content_id := some 77 } 77 rfl rfl rfl).1

/-!  Claim C3. -/

/-- C3 counterexample: when no video player element is mounted (no
movie selected yet), a received update is dropped entirely, so a
provided playing field does not replace the previous value. -/
theorem videoStateUpdated_dropped_without_player_counterexample :
    onVideoStateUpdated { playing := some true, currentTime := some 120, tmdbId := some 9 }
        { hasPlayer := false, playing := false, currentTime := 5, tmdbId := none }
      = { hasPlayer := false, playing := false, currentTime := 5, tmdbId := none } ∧
    (onVideoStateUpdated { playing := some true, currentTime := some 120, tmdbId := some 9 }
        { hasPlayer := false, playing := false, currentTime := 5, tmdbId := none }).playing
      ≠ true := by
  decide

/-- C3 (amended): while a video player element is mounted, applying a
received playback-state update changes exactly the fields present in
the update (absent fields keep their previous values, present fields
fully replace them); while no player element is mounted the whole
update is ignored. -/
theorem videoStateUpdated_merges_fields (u : WireUpdate) (st : PlayerState) :
    (st.hasPlayer = true →
      (onVideoStateUpdated u st).playing = u.playing.getD st.playing ∧
      (onVideoStateUpdated u st).currentTime = u.currentTime.getD st.currentTime ∧
      (onVideoStateUpdated u st).tmdbId
        = (match u.tmdbId with | some t => some t | none => st.tmdbId) ∧
      (onVideoStateUpdated u st).hasPlayer = st.hasPlayer) ∧
    (st.hasPlayer = false → onVideoStateUpdated u st = st) := by
  constructor
  · intro hp
    obtain ⟨up, uc, ut⟩ := u
    obtain ⟨hpv, pl, ct, ti⟩ := st
    subst hp
    cases up <;> cases uc <;> cases ut <;>
      simp only [onVideoStateUpdated, Option.getD] <;>
      split_ifs with hti <;> simp_all
  · intro hp
    simp [onVideoStateUpdated, hp]

/-- Witness for the amended C3 theorem at concrete inputs. -/
theorem videoStateUpdated_merges_fields_witness :
    (onVideoStateUpdated { playing := some false, currentTime := some 42, tmdbId := some 9 }
        { hasPlayer := true, playing := true, currentTime := 7, tmdbId := some 3 }).playing
      = false ∧
    (onVideoStateUpdated { playing := some false, currentTime := some 42, tmdbId := some 9 }
        { hasPlayer := true, playing := true, currentTime := 7, tmdbId := some 3 }).currentTime
      = 42 ∧
    (onVideoStateUpdated { playing := some false, currentTime := some 42, tmdbId := some 9 }
        { hasPlayer := true, playing := true, currentTime := 7, tmdbId := some 3 }).tmdbId
      = some 9 := by
  have h := (videoStateUpdated_merges_fields
    { playing := some false, currentTime := some 42, tmdbId := some 9 }
    { hasPlayer := true, playing := true, currentTime := 7, tmdbId := some 3 }).1 rfl
  exact ⟨h.1, h.2.1, h.2.2.1⟩

/-!  Claim C4. -/

/-- C4 counterexample: after the error handler of a pair runs, no
pair-state for that peer exists at all — no re-attempt was made (the
claim asserts one retry, as if the peer had just rejoined, before
giving up). -/
theorem peerError_no_retry_counterexample :
    lookupPeer "p1"
      (onPeerError "p1"
        { peers := [("p1", { initiator := true, appliedSignals := [5], stream := some 0 })],
          localStream := some 0, currentPartyId := some 7, destroyed := [] }).peers
      = none ∧
    (onPeerError "p1"
        { peers := [("p1", { initiator := true, appliedSignals := [5], stream := some 0 })],
          localStream := some 0, currentPartyId := some 7, destroyed := [] }).peers
      = [] := by
  decide

/-- C4 (amended): after a negotiation error on a single pair, the
client tears down only that pair-state (destroying it and removing it
from the map) and does not re-attempt negotiation at all — zero
retries — and never touches the pair-states of other peers. -/
theorem peerError_teardown_only (p : String) (st : ClientState) (c : PeerConn)
    (h : lookupPeer p st.peers = some c) :
    lookupPeer p (onPeerError p st).peers = none ∧
    p ∈ (onPeerError p st).destroyed ∧
    (∀ q, q ≠ p → lookupPeer q (onPeerError p st).peers = lookupPeer q st.peers) ∧
    (onPeerError p st).localStream = st.localStream := by
  refine ⟨?_, ?_, fun q hq => ?_, ?_⟩
  · simp [onPeerError, h, lookupPeer_removePeer_self]
  · simp [onPeerError, h]
  · simp [onPeerError, h, lookupPeer_removePeer_ne q p st.peers hq]
  · simp [onPeerError, h]

/-- Witness for the amended C4 theorem at a concrete client state. -/
theorem peerError_teardown_only_witness :
    lookupPeer "p1"
      (onPeerError "p1"
        { peers := [("p1", { initiator := false, appliedSignals := [3], stream := none }),
                    ("p2", { initiator := true, appliedSignals := [], stream := none })],
          localStream := none, currentPartyId := some 1, destroyed := [] }).peers
      = none := by
  exact (peerError_teardown_only "p1"
    { peers := [("p1", { initiator := false, appliedSignals := [3], stream := none }),
                ("p2", { initiator := true, appliedSignals := [], stream := none })],
      localStream := none, currentPartyId := some 1, destroyed := [] }
    { initiator := false, appliedSignals := [3], stream := none } (by decide)).1

/-!  Claim C5: helper lemmas about the presence registry. -/

theorem liveFor_filter_le (party : Nat) (user : String) (q : RegEntry → Bool)
    (r : List RegEntry) :
    (liveFor party user (r.filter q)).length ≤ (liveFor party user r).length :=
  List.Sublist.length_le (List.Sublist.filter _ (List.filter_sublist r))

theorem liveFor_register_same (h : String) (party : Nat) (user : String)
    (r : List RegEntry) :
    liveFor party user (registerHandle h party user r)
      = [{ handle := h, party := party, user := user }] := by
  have htail : (r.filter fun e => !(sameIdent party user e)).filter (sameIdent party user)
      = [] := by
    induction r with
    | nil => rfl
    | cons e rest ih =>
        simp only [List.filter_cons]
        cases hse : sameIdent party user e <;> simp [List.filter_cons, hse, ih]
  simp [liveFor, registerHandle, List.filter_cons, htail, sameIdent]

theorem liveFor_register_other (h : String) (party : Nat) (user : String)
    (p : Nat) (u : String) (r : List RegEntry) (hne : ¬(party = p ∧ user = u)) :
    (liveFor p u (registerHandle h party user r)).length ≤ (liveFor p u r).length := by
  have hhead : sameIdent p u { handle := h, party := party, user := user } = false := by
    by_contra hb
    rw [Bool.not_eq_false] at hb
    simp only [sameIdent, Bool.and_eq_true, beq_iff_eq] at hb
    exact hne hb
  unfold liveFor registerHandle
  simp only [List.filter_cons, hhead]
  exact liveFor_filter_le p u _ r

theorem liveFor_applyRegOp_le (r : List RegEntry) (o : RegOp) (p : Nat) (u : String)
    (hr : (liveFor p u r).length ≤ 1) :
    (liveFor p u (applyRegOp r o)).length ≤ 1 := by
  cases o with
  | register h party user =>
      by_cases hsame : party = p ∧ user = u
      · obtain ⟨rfl, rfl⟩ := hsame
        rw [applyRegOp, liveFor_register_same]
        simp
      · exact le_trans (liveFor_register_other h party user p u r hsame) hr
  | unregister h => exact le_trans (liveFor_filter_le p u _ r) hr

theorem liveFor_foldl_le (ops : List RegOp) (r : List RegEntry) (p : Nat) (u : String)
    (hr : (liveFor p u r).length ≤ 1) :
    (liveFor p u (ops.foldl applyRegOp r)).length ≤ 1 := by
  induction ops generalizing r with
  | nil => exact hr
  | cons o rest ih => exact ih _ (liveFor_applyRegOp_le r o p u hr)

/-- C5: after any sequence of register and unregister operations from
the empty registry, at most one live handle is registered for any
(party, user) pair; and a register call evicts every other entry for
the same identity: any entry of the post-register registry bound to
that identity is the newly installed handle. -/
theorem presence_unique_live_handle (ops : List RegOp) (party : Nat) (user : String) :
    (liveFor party user (runRegOps ops)).length ≤ 1 ∧
    (∀ (h : String) (r : List RegEntry) (e : RegEntry),
      e ∈ registerHandle h party user r → sameIdent party user e = true →
      e.handle = h) := by
  constructor
  · exact liveFor_foldl_le ops [] party user (by simp [liveFor])
  · intro h r e he hs
    simp only [registerHandle, List.mem_cons] at he
    rcases he with rfl | he
    · rfl
    · have hkeep := List.of_mem_filter he
      simp [hs] at hkeep

/-- Witness for the C5 theorem: a reconnecting user registers twice
for the same party and only the second handle stays live. -/
theorem presence_unique_live_handle_witness :
    (liveFor 7 "u1"
      (runRegOps [RegOp.register "h1" 7 "u1", RegOp.register "h2" 7 "u1"])).length ≤ 1 ∧
    ({ handle := "h2", party := 7, user := "u1" } : RegEntry).handle = "h2" := by
  refine ⟨(presence_unique_live_handle
    [RegOp.register "h1" 7 "u1", RegOp.register "h2" 7 "u1"] 7 "u1").1, ?_⟩
  exact (presence_unique_live_handle [] 7 "u1").2 "h2"
    [{ handle := "h1", party := 7, user := "u1" }]
    { handle := "h2", party := 7, user := "u1" } (by decide) (by decide)

/-!  Claim C6. -/

/-- C6: processing a participant_left event for peer p destroys the
pair-state of p (its media resources are released via destroy) and
removes it from the peers map, while the pair-state of every other
peer is left unchanged. -/
theorem participantLeft_closes_only_that_pair (p : String) (st : ClientState)
    (c : PeerConn) (h : lookupPeer p st.peers = some c) :
    lookupPeer p (onParticipantLeft p st).peers = none ∧
    p ∈ (onParticipantLeft p st).destroyed ∧
    (∀ q, q ≠ p → lookupPeer q (onParticipantLeft p st).peers = lookupPeer q st.peers) ∧
    (onParticipantLeft p st).localStream = st.localStream := by
  refine ⟨?_, ?_, fun q hq => ?_, ?_⟩
  · simp [onParticipantLeft, h, lookupPeer_removePeer_self]
  · simp [onParticipantLeft, h]
  · simp [onParticipantLeft, h, lookupPeer_removePeer_ne q p st.peers hq]
  · simp [onParticipantLeft, h]

/-- Witness for the C6 theorem at a concrete client state with two
live pairs. -/
theorem participantLeft_closes_only_that_pair_witness :
    lookupPeer "a"
      (onParticipantLeft "a"
        { peers := [("a", { initiator := true, appliedSignals := [], stream := some 0 }),
                    ("b", { initiator := false, appliedSignals := [2], stream := some 0 })],
          localStream := some 0, currentPartyId := some 3, destroyed := [] }).peers
      = none ∧
    lookupPeer "b"
      (onParticipantLeft "a"
        { peers := [("a", { initiator := true, appliedSignals := [], stream := some 0 }),
                    ("b", { initiator := false, appliedSignals := [2], stream := some 0 })],
          localStream := some 0, currentPartyId := some 3, destroyed := [] }).peers
      = lookupPeer "b"
          [("a", { initiator := true, appliedSignals := [], stream := some 0 }),
           ("b", { initiator := false, appliedSignals := [2], stream := some 0 })] := by
  have h := participantLeft_closes_only_that_pair "a"
    { peers := [("a", { initiator := true, appliedSignals := [], stream := some 0 }),
                ("b", { initiator := false, appliedSignals := [2], stream := some 0 })],
      localStream := some 0, currentPartyId := some 3, destroyed := [] }
    { initiator := true, appliedSignals := [], stream := some 0 } (by decide)
  exact ⟨h.1, h.2.2.1 "b" (by decide)⟩

/-!  Claim C7. -/

/-- C7: on receiving a negotiation payload from a peer with no
existing pair-state, the client creates a non-initiator pair-state for
that peer with the payload applied; when a pair-state already exists,
the payload is appended to it, the pair-states of all other peers are
untouched, and no pair-state for any new peer appears. -/
theorem signalReceived_pair_state (f : String) (s : Nat) (st : ClientState) :
    (lookupPeer f st.peers = none →
      lookupPeer f (onSignalReceived f s st).peers
        = some { initiator := false, appliedSignals := [s], stream := st.localStream }) ∧
    (∀ c, lookupPeer f st.peers = some c →
      lookupPeer f (onSignalReceived f s st).peers
        = some { c with appliedSignals := c.appliedSignals ++ [s] }) ∧
    (∀ q, q ≠ f → lookupPeer q (onSignalReceived f s st).peers = lookupPeer q st.peers) ∧
    (∀ q, (lookupPeer q (onSignalReceived f s st).peers).isSome
        = ((lookupPeer q st.peers).isSome || q == f)) := by
  refine ⟨fun hn => ?_, fun c hc => ?_, fun q hq => ?_, fun q => ?_⟩
  · simp [onSignalReceived, hn, createPeer, lookupPeer_setPeer_self]
  · simp [onSignalReceived, hc, lookupPeer_setPeer_self]
  · cases hl : lookupPeer f st.peers <;>
      simp [onSignalReceived, hl, createPeer, lookupPeer_setPeer_ne q f _ _ hq]
  · by_cases hq : q = f
    · subst hq
      cases hl : lookupPeer q st.peers <;>
        simp [onSignalReceived, hl, createPeer, lookupPeer_setPeer_self]
    · cases hl : lookupPeer f st.peers <;>
        simp [onSignalReceived, hl, createPeer, lookupPeer_setPeer_ne q f _ _ hq, hq]

/-- Witness for the C7 theorem: a first payload creates the passive
pair-state, a second one is appended to it. -/
theorem signalReceived_pair_state_witness :
    lookupPeer "x" (onSignalReceived "x" 11 (newClient none)).peers
      = some { initiator := false, appliedSignals := [11], stream := none } ∧
    lookupPeer "x" (onSignalReceived "x" 12 (onSignalReceived "x" 11 (newClient none))).peers
      = some { initiator := false, appliedSignals := [11, 12], stream := none } := by
  constructor
  · exact (signalReceived_pair_state "x" 11 (newClient none)).1 rfl
  · exact (signalReceived_pair_state "x" 12 (onSignalReceived "x" 11 (newClient none))).2.1
      { initiator := false, appliedSignals := [11], stream := none } (by decide)

/-!  Claim C8. -/

/-- C8: the joinWatchParty promise resolves exactly when the
acknowledgement has success set; on success it resolves with the whole
response, so the resolved value carries the acknowledged roster and
playback state (from which the session view is bootstrapped), and on a
non-success acknowledgement carrying an error it rejects with that
server-supplied error. -/
theorem joinWatchParty_resolves_iff (resp : JoinResponse) :
    ackResolves (joinAck resp) = resp.success ∧
    (resp.success = true → joinAck resp = Except.ok resp) ∧
    (∀ r, joinAck resp = Except.ok r →
      r.participants = resp.participants ∧ r.video_state = resp.video_state ∧
      bootstrapParticipants r = resp.participants.map mkParticipant) ∧
    (∀ e, resp.success = false → resp.error = some e →
      joinAck resp = Except.error e) := by
  refine ⟨?_, fun hs => ?_, fun r hr => ?_, fun e hs he => ?_⟩
  · cases hs : resp.success <;> simp [joinAck, ackResolves, hs]
  · simp [joinAck, hs]
  · cases hs : resp.success <;> simp [joinAck, hs] at hr
    subst hr
    exact ⟨rfl, rfl, rfl⟩
  · simp [joinAck, hs, he]

/-- Witness for the C8 theorem: a successful and a failed
acknowledgement. -/
theorem joinWatchParty_resolves_iff_witness :
    joinAck { success := true, error := none,
              participants := [{ sid := "s1", user_id := "u1", username := "u1" }],
              video_state := { playing := true, currentTime := 0, tmdbId := some 42 } }
      = Except.ok { success := true, error := none,
                    participants := [{ sid := "s1", user_id := "u1", username := "u1" }],
                    video_state := { playing := true, currentTime := 0, tmdbId := some 42 } } ∧
    joinAck { success := false, error := some "party ended", participants := [],
              video_state := { playing := false, currentTime := 0, tmdbId := none } }
      = Except.error "party ended" := by
  constructor
  · exact (joinWatchParty_resolves_iff
      { success := true, error := none,
        participants := [{ sid := "s1", user_id := "u1", username := "u1" }],
        video_state := { playing := true, currentTime := 0, tmdbId := some 42 } }).2.1 rfl
  · exact (joinWatchParty_resolves_iff
      { success := false, error := some "party ended", participants := [],
        video_state := { playing := false, currentTime := 0, tmdbId := none } }).2.2.2
      "party ended" rfl rfl

/-!  Claim C9. -/

/-- C9: with a null local stream, a participant_joined event creates
no pair-state and initiates nothing (the state is unchanged); the
client still joins the party with audio and video disabled after a
failed media initialization; and a pair-state for a peer can only
appear, while the stream is null, through a signal_received event from
that very peer. -/
theorem noStream_no_initiation (selfSid p : String) (e : ClientEvent)
    (st : ClientState) (hs : st.localStream = none) :
    (∀ q, stepEvent selfSid (ClientEvent.participantJoined q) st = st) ∧
    ((setupMedia none).joinsParty = true ∧ (setupMedia none).videoEnabled = false ∧
      (setupMedia none).audioEnabled = false ∧ (setupMedia none).localStream = none) ∧
    (lookupPeer p st.peers = none →
      (lookupPeer p (stepEvent selfSid e st).peers).isSome = true →
      ∃ s, e = ClientEvent.signalReceived p s) := by
  refine ⟨fun q => ?_, ⟨rfl, rfl, rfl, rfl⟩, fun hn hsome => ?_⟩
  · simp [stepEvent, onParticipantJoined, hs]
  · cases e with
    | participantJoined q =>
        simp [stepEvent, onParticipantJoined, hs, hn] at hsome
    | participantLeft q =>
        cases hl : lookupPeer q st.peers <;>
          simp [stepEvent, onParticipantLeft, hl, hn] at hsome
        by_cases hpq : p = q
        · simp [hpq, lookupPeer_removePeer_self] at hsome
        · simp [lookupPeer_removePeer_ne p q st.peers hpq, hn] at hsome
    | peerError q =>
        cases hl : lookupPeer q st.peers <;>
          simp [stepEvent, onPeerError, hl, hn] at hsome
        by_cases hpq : p = q
        · simp [hpq, lookupPeer_removePeer_self] at hsome
        · simp [lookupPeer_removePeer_ne p q st.peers hpq, hn] at hsome
    | signalReceived f s =>
        by_cases hf : f = p
        · exact ⟨s, by rw [hf]⟩
        · have hpf : p ≠ f := fun hh => hf hh.symm
          cases hl : lookupPeer f st.peers <;>
            simp [stepEvent, onSignalReceived, hl, createPeer,
              lookupPeer_setPeer_ne p f _ _ hpf, hn] at hsome

/-- Witness for the C9 theorem: with no media, a join event leaves the
fresh client untouched, and the client still joins the party. -/
theorem noStream_no_initiation_witness :
    stepEvent "me" (ClientEvent.participantJoined "p") (newClient none) = newClient none ∧
    (setupMedia none).joinsParty = true := by
  have h := noStream_no_initiation "me" "p" (ClientEvent.participantJoined "p")
    (newClient none) rfl
  exact ⟨h.1 "p", h.2.1.1⟩

/-!  Claim C10. -/

/-- C10: leaveWatchParty is not atomic on error.  Its synchronous part
unconditionally empties the peers map, destroys every peer connection
and removes the stored party id; the eventual acknowledgement settles
the promise without touching the client state, so after a failure
acknowledgement the promise is rejected while the pair-states and the
stored party id stay discarded. -/
theorem leaveWatchParty_cleanup_unconditional (st : ClientState) (err : Option String) :
    (leaveWatchPartyLocal st).peers = [] ∧
    (leaveWatchPartyLocal st).currentPartyId = none ∧
    (leaveWatchPartyLocal st).destroyed = st.peers.map Prod.fst ++ st.destroyed ∧
    (∀ success error, (leaveWatchParty st success error).1 = leaveWatchPartyLocal st) ∧
    (leaveWatchParty st false err).2
      = Except.error (err.getD "Failed to leave watch party") := by
  refine ⟨rfl, rfl, rfl, fun success error => rfl, ?_⟩
  simp [leaveWatchParty, leaveAck]



